import Mathlib

/-!
Shallow embedding of src/elgato-gchd.c (Elgato Game Capture HD userspace
driver front-end).  External effects (libusb calls, file system, signals)
are modelled by an environment oracle `Env` fixing the outcome of each
external call, and the program is embedded as a function from that
environment to the trace of externally visible events it performs,
together with its exit code and the final values of the C globals.
-/

set_option maxHeartbeats 1000000

/-- USB product ids tried by `init_dev_handler`, in source order. -/
def GAME_CAPTURE_HD_PID_0 : Nat := 0x0044

def GAME_CAPTURE_HD_PID_1 : Nat := 0x004e

def GAME_CAPTURE_HD_PID_2 : Nat := 0x0051

def GAME_CAPTURE_HD_PID_3 : Nat := 0x005d

/-- Fixed sink path, global `fifo_path` in the source. -/
def fifo_path : String := "/tmp/elgato_gchd.ts"

def fifoCreatedMsg : String := fifo_path ++ " has been created. Waiting for user to open it."

/-- `enum video_resoltion` of the source (the source spells it this way);
numeric values v720p = 0, ..., vc1080p = 6 in declaration order. -/
inductive video_resoltion
  | v720p
  | v1080p
  | v576i
  | vc576p
  | vc720p
  | vc1080i
  | vc1080p
deriving Repr, DecidableEq

/-- The opaque configuration script selected by the `switch (resolution)`
dispatch in `main`; one constructor per `configure_dev_*` routine. -/
inductive ConfigScript
  | s720p
  | s1080p
  | s576i
  | sComponent576p
  | sComponent720p
  | sComponent1080i
  | sComponent1080p
deriving Repr, DecidableEq

/-- Externally visible events of one program run. -/
inductive Event
  | libusbInit
  | openDev (pid : Nat)
  | detachKernelDriver
  | setConfiguration
  | claimInterface
  | mkfifo
  | openFifo
  | configure (script : ConfigScript)
  | receiveData
  | cleanUp
  | removeElgato
  | releaseInterface
  | closeDev
  | libusbExit
  | closeFifo
  | unlinkFifo
  | msg (text : String)
deriving Repr, DecidableEq

/-- The C globals of the source that cleanup reads:
`devh` (modelled as validity), `libusb_ret`, `fd_fifo`, `init_has_been_run`. -/
structure St where
  devh : Bool
  libusb_ret : Nat
  fd_fifo : Int
  init_has_been_run : Bool
deriving Repr, DecidableEq

/-- Initial global state: `devh = NULL`, `libusb_ret = 1`, `fd_fifo = 0`,
`init_has_been_run = 0`. -/
def st0 : St := { devh := false, libusb_ret := 1, fd_fifo := 0, init_has_been_run := false }

/-- Environment oracle fixing the outcome of every external call. -/
structure Env where
  fwIdle : Bool
  fwEnc : Bool
  libusbInitRet : Nat
  openOk : Fin 4 → Bool
  kernelDriverActive : Bool
  setConfigRet : Nat
  claimRet : Nat
  openFifoFd : Int
  configOk : Bool
  sigsBeforeConfig : List Nat
  sigsAtIter : Nat → List Nat

def SIGINT : Nat := 2

def SIGTERM : Nat := 15

/-- `sig_handler` from the source, as a transformer of the
`is_running` flag: SIGINT and SIGTERM set it to 0, all else is untouched. -/
def sig_handler (sig : Nat) (running : Bool) : Bool :=
  if sig = SIGINT then false
  else if sig = SIGTERM then false
  else running

/-- Deliver a batch of signals to the run flag, in order. -/
def applySigs (sigs : List Nat) (r : Bool) : Bool :=
  sigs.foldl (fun b s => sig_handler s b) r

/-- Signal batches delivered at each observation point of the flag:
point 0 is the stretch up to the `if (is_running)` configuration check,
point i+1 is the stretch before the i-th `while (is_running)` check. -/
def sigSeq (env : Env) : Nat → List Nat
  | 0 => env.sigsBeforeConfig
  | i + 1 => env.sigsAtIter i

/-- Value of the `is_running` flag at each observation point:
initially 1, then updated only by delivered signals through `sig_handler`. -/
def runFlagAt (env : Env) : Nat → Bool
  | 0 => true
  | i + 1 => applySigs (sigSeq env i) (runFlagAt env i)

/-- Result of `init_dev_handler`: its return value, whether `devh` ended up
non-NULL, which candidate matched, the diagnostics it printed, and the
product ids it attempted to open, in order. -/
structure LocResult where
  ret : Nat
  devh : Bool
  matched : Option (Fin 4)
  msgs : List String
  tried : List Nat
deriving Repr, DecidableEq

/-- `init_dev_handler` from the source: initialize libusb, then try the four
product ids in fixed order, first successful open wins; a match on the fourth
id prints an unsupported-revision diagnostic but still returns 1, the same
value returned when nothing matches. -/
def init_dev_handler (env : Env) : LocResult :=
  if env.libusbInitRet ≠ 0 then
    ⟨1, false, none, ["Error initializing libusb."], []⟩
  else if env.openOk 0 then
    ⟨0, true, some 0, [], [GAME_CAPTURE_HD_PID_0]⟩
  else if env.openOk 1 then
    ⟨0, true, some 1, [], [GAME_CAPTURE_HD_PID_0, GAME_CAPTURE_HD_PID_1]⟩
  else if env.openOk 2 then
    ⟨0, true, some 2, [], [GAME_CAPTURE_HD_PID_0, GAME_CAPTURE_HD_PID_1, GAME_CAPTURE_HD_PID_2]⟩
  else if env.openOk 3 then
    ⟨1, true, some 3, ["This revision of the Elgato Game Capture HD is currently not supported."],
      [GAME_CAPTURE_HD_PID_0, GAME_CAPTURE_HD_PID_1, GAME_CAPTURE_HD_PID_2, GAME_CAPTURE_HD_PID_3]⟩
  else
    ⟨1, false, none, [],
      [GAME_CAPTURE_HD_PID_0, GAME_CAPTURE_HD_PID_1, GAME_CAPTURE_HD_PID_2, GAME_CAPTURE_HD_PID_3]⟩

/-- Events performed by `init_dev_handler` (the libusb context bring-up and
each open attempt) followed by its diagnostics. -/
def locTrace (loc : LocResult) : List Event :=
  Event.libusbInit :: (loc.tried.map Event.openDev ++ loc.msgs.map Event.msg)

/-- `get_interface` from the source: detach a competing kernel driver if one
is active, set the configuration, claim the interface; returns the C return
value together with the events (attempts and diagnostics) it performed. -/
def get_interface (env : Env) : Nat × List Event :=
  let detachTr : List Event :=
    if env.kernelDriverActive then [Event.detachKernelDriver] else []
  if env.setConfigRet ≠ 0 then
    (1, detachTr ++ [Event.setConfiguration, Event.msg "Could not activate configuration."])
  else if env.claimRet ≠ 0 then
    (1, detachTr
      ++ [Event.setConfiguration, Event.claimInterface, Event.msg "Failed to claim interface."])
  else
    (0, detachTr ++ [Event.setConfiguration, Event.claimInterface])

/-- `clean_up` from the source: reset the device only when `devh` is valid and
`init_has_been_run` is set; release the interface and close the handle
whenever `devh` is valid; tear down the libusb context only when
`libusb_ret == 0`; close and unlink the FIFO unconditionally. -/
def clean_up (s : St) : List Event :=
  (if s.devh then
    (if s.init_has_been_run then [Event.removeElgato, Event.msg "Device has been reset."] else [])
      ++ [Event.releaseInterface, Event.closeDev]
  else [])
  ++ (if s.libusb_ret = 0 then [Event.libusbExit] else [])
  ++ [Event.closeFifo, Event.unlinkFifo, Event.msg "Terminating."]

/-- An invocation of `clean_up`, marked by a `cleanUp` event. -/
def runCleanUp (s : St) : List Event :=
  Event.cleanUp :: clean_up s

/-- The token matching of the `case 'r'` branch in `main`: the seven
accepted literal resolution tokens, anything else rejected. -/
def parse_resolution_token (s : String) : Option video_resoltion :=
  if s = "720p" then some .v720p
  else if s = "1080p" then some .v1080p
  else if s = "576i" then some .v576i
  else if s = "c576p" then some .vc576p
  else if s = "c720p" then some .vc720p
  else if s = "c1080i" then some .vc1080i
  else if s = "c1080p" then some .vc1080p
  else none

def resolutionTokens : List String :=
  ["720p", "1080p", "576i", "c576p", "c720p", "c1080i", "c1080p"]

/-- One iteration outcome of the `getopt_long` loop in `main`: an `-r`/
`--resolution` option with its argument, a missing required argument
(the `:` branch), or an unrecognized option (the `?` branch). -/
inductive OptEvent
  | optR (arg : String)
  | missingArg
  | unknownOpt
deriving Repr, DecidableEq

/-- The option-processing loop of `main`: each `-r` token either updates the
selected resolution or fails with a usage diagnostic; the `:` and `?` branches
fail immediately.  The accumulator starts at `v720p` (`resolution = 0`). -/
def parse_args : List OptEvent → video_resoltion → Except String video_resoltion
  | [], r => .ok r
  | .optR a :: rest, _r =>
    match parse_resolution_token a with
    | some r2 => parse_args rest r2
    | none => .error "Unsupported resolution."
  | .missingArg :: _, _ => .error "Missing argument."
  | .unknownOpt :: _, _ => .error "Unrecognized option."

/-- The `switch (resolution)` dispatch in `main`: each enum value selects the
configuration script of the same name. -/
def configure_dispatch : video_resoltion → ConfigScript
  | .v720p => .s720p
  | .v1080p => .s1080p
  | .v576i => .s576i
  | .vc576p => .sComponent576p
  | .vc720p => .sComponent720p
  | .vc1080i => .sComponent1080i
  | .vc1080p => .sComponent1080p

/-- Modelled from the spec: the `configure_dev_*` routines live in the
`init_*.h` headers, which are not part of src/; per the spec the Resolution
Configurator "On success sets InitializedFlag".  A configuration attempt
whose success is fixed by the environment sets `init_has_been_run`
accordingly (it was 0 before the attempt). -/
def configure_dev (ok : Bool) (s : St) : St :=
  { s with init_has_been_run := ok }

/-- The `while (is_running) receive_data();` loop: before each check the
pending signal batch is delivered to the flag; if the flag is still set one
`receive_data` call happens and the loop continues.  `fuel` bounds the number
of iterations the model can unfold; `none` means the bound was hit. -/
def captureLoop (sched : Nat → List Nat) : Nat → Nat → Bool → Option (List Event)
  | 0, i, r =>
    if applySigs (sched i) r then none else some []
  | f + 1, i, r =>
    if applySigs (sched i) r then
      Option.map (fun t => Event.receiveData :: t) (captureLoop sched f (i + 1) true)
    else some []

/-- Result of a complete run: the event trace, the process exit code, and the
final values of the C globals. -/
structure RunResult where
  trace : List Event
  exitCode : Nat
  finalSt : St
deriving Repr, DecidableEq

/-- Global state after `init_dev_handler` returned: `devh` and `libusb_ret`
hold what the locator left there, the FIFO is untouched. -/
def st1Of (env : Env) : St :=
  { devh := (init_dev_handler env).devh, libusb_ret := env.libusbInitRet, fd_fifo := 0,
    init_has_been_run := false }

/-- Global state after the FIFO `open` call also stored its descriptor. -/
def st2Of (env : Env) : St :=
  { st1Of env with fd_fifo := env.openFifoFd }

/-- Events of FIFO creation: `mkfifo`, the announcement, the blocking open. -/
def fifoTr : List Event :=
  [Event.mkfifo, Event.msg fifoCreatedMsg, Event.openFifo]

/-- Events of the `if (is_running)` configuration block when it runs. -/
def cfgTrOf (res : video_resoltion) : List Event :=
  [Event.msg "Running. Initializing device.",
   Event.configure (configure_dispatch res),
   Event.msg "Streaming data from device now."]

/-- The body of `main` after option processing: firmware presence check, then
`init_dev_handler`, `get_interface`, FIFO creation and open, the
`if (is_running)` configuration block, the capture loop, and on every path the
single `end:` cleanup, returning 0. -/
def main_after_args (res : video_resoltion) (env : Env) (fuel : Nat) : Option RunResult :=
  if env.fwIdle && env.fwEnc then
    if (init_dev_handler env).ret ≠ 0 then
      some ⟨locTrace (init_dev_handler env)
              ++ (Event.msg "Unable to find device." :: runCleanUp (st1Of env)), 0, st1Of env⟩
    else if (get_interface env).1 ≠ 0 then
      some ⟨locTrace (init_dev_handler env) ++ (get_interface env).2
              ++ (Event.msg "Could not claim interface." :: runCleanUp (st1Of env)), 0, st1Of env⟩
    else if applySigs env.sigsBeforeConfig true then
      match captureLoop env.sigsAtIter fuel 0 true with
      | none => none
      | some loopTr =>
          some ⟨locTrace (init_dev_handler env) ++ (get_interface env).2 ++ fifoTr
                  ++ cfgTrOf res ++ loopTr
                  ++ runCleanUp (configure_dev env.configOk (st2Of env)), 0,
                configure_dev env.configOk (st2Of env)⟩
    else
      match captureLoop env.sigsAtIter fuel 0 false with
      | none => none
      | some loopTr =>
          some ⟨locTrace (init_dev_handler env) ++ (get_interface env).2 ++ fifoTr
                  ++ loopTr ++ runCleanUp (st2Of env), 0, st2Of env⟩
  else
    some ⟨Event.msg "Firmware files missing." :: runCleanUp st0, 0, st0⟩

/-- `main`: option processing first; a usage error prints one diagnostic and
exits with `EXIT_FAILURE` (1) before touching the device; otherwise the
lifecycle runs with the selected resolution (default `v720p`). -/
def gchd_main (opts : List OptEvent) (env : Env) (fuel : Nat) : Option RunResult :=
  match parse_args opts video_resoltion.v720p with
  | .error m => some ⟨[Event.msg m], 1, st0⟩
  | .ok res => main_after_args res env fuel

/-- Trace of an optional run result (empty when the fuel bound was hit). -/
def traceOf : Option RunResult → List Event
  | none => []
  | some rr => rr.trace

/-- Concrete environment: firmware present, libusb fine, no device attached. -/
def envNoDev : Env :=
  ⟨true, true, 0, fun _ => false, false, 0, 0, 3, true, [], fun _ => []⟩

/-- Concrete environment: only the fourth (unsupported) identity matches. -/
def envOnlyPid3 : Env :=
  ⟨true, true, 0, fun i => i = 3, false, 0, 0, 3, true, [], fun _ => []⟩

/-- Concrete environment: full successful streaming, SIGINT before the third
loop check. -/
def envStream : Env :=
  ⟨true, true, 0, fun i => i = 0, true, 0, 0, 3, true, [],
   fun i => if i = 2 then [SIGINT] else []⟩

/-- Concrete environment: setup succeeds but a termination signal arrives
before the configuration-stage check of the run flag. -/
def envEarlyStop : Env :=
  ⟨true, true, 0, fun i => i = 0, false, 0, 0, -1, true, [SIGTERM], fun _ => []⟩

/-- Concrete environment: firmware asset missing. -/
def envNoFw : Env :=
  ⟨false, true, 0, fun _ => false, false, 0, 0, 3, true, [], fun _ => []⟩

theorem sig_handler_false (s : Nat) : sig_handler s false = false := by
  unfold sig_handler
  by_cases h2 : s = SIGINT <;> by_cases h15 : s = SIGTERM <;> simp [h2, h15]

theorem applySigs_false (sigs : List Nat) : applySigs sigs false = false := by
  induction sigs with
  | nil => rfl
  | cons s t ih =>
      show List.foldl _ (sig_handler s false) t = false
      rw [sig_handler_false]
      exact ih

theorem captureLoop_flag_false (sched : Nat → List Nat) (fuel i : Nat) :
    captureLoop sched fuel i false = some [] := by
  cases fuel <;> simp [captureLoop, applySigs_false]

theorem captureLoop_mem (sched : Nat → List Nat) :
    ∀ (f i : Nat) (r : Bool) (tr : List Event),
      captureLoop sched f i r = some tr → ∀ e ∈ tr, e = Event.receiveData := by
  intro f
  induction f with
  | zero =>
      intro i r tr h e he
      unfold captureLoop at h
      split at h
      · exact absurd h (by simp)
      · obtain rfl : ([] : List Event) = tr := Option.some.inj h
        simp at he
  | succ f ih =>
      intro i r tr h e he
      unfold captureLoop at h
      split at h
      · obtain ⟨t, ht, rfl⟩ := Option.map_eq_some'.mp h
        rcases List.mem_cons.mp he with rfl | he2
        · rfl
        · exact ih (i + 1) true t ht e he2
      · obtain rfl : ([] : List Event) = tr := Option.some.inj h
        simp at he

theorem clean_up_mem (s : St) (e : Event) (he : e ∈ clean_up s) :
    e = Event.removeElgato ∨ e = Event.releaseInterface ∨ e = Event.closeDev ∨
    e = Event.libusbExit ∨ e = Event.closeFifo ∨ e = Event.unlinkFifo ∨
    ∃ m, e = Event.msg m := by
  unfold clean_up at he
  by_cases h1 : s.devh = true <;> by_cases h2 : s.init_has_been_run = true <;>
    by_cases h3 : s.libusb_ret = 0 <;> simp [h1, h2, h3] at he <;> tauto

theorem locTrace_mem (loc : LocResult) (e : Event) (he : e ∈ locTrace loc) :
    e = Event.libusbInit ∨ (∃ p, e = Event.openDev p) ∨ ∃ m, e = Event.msg m := by
  unfold locTrace at he
  rcases List.mem_cons.mp he with rfl | he2
  · tauto
  rcases List.mem_append.mp he2 with h3 | h3
  · obtain ⟨p, _, rfl⟩ := List.mem_map.mp h3
    tauto
  · obtain ⟨m, _, rfl⟩ := List.mem_map.mp h3
    tauto

theorem get_interface_mem (env : Env) (e : Event) (he : e ∈ (get_interface env).2) :
    e = Event.detachKernelDriver ∨ e = Event.setConfiguration ∨ e = Event.claimInterface ∨
    ∃ m, e = Event.msg m := by
  unfold get_interface at he
  by_cases h1 : env.kernelDriverActive = true <;> by_cases h2 : env.setConfigRet = 0 <;>
    by_cases h3 : env.claimRet = 0 <;> simp [h1, h2, h3] at he <;> tauto

/-- C9: within one process lifetime the run flag transitions only from true to
false and never back: it starts true (`runFlagAt env 0 = true` by definition),
is updated only through `sig_handler` deliveries, and once observed false it
stays false at every later observation point. -/
theorem c9_runflag_monotone (env : Env) (i j : Nat) (hij : i ≤ j)
    (h : runFlagAt env i = false) : runFlagAt env j = false := by
  induction j, hij using Nat.le_induction with
  | base => exact h
  | succ n hn ih =>
      show applySigs (sigSeq env n) (runFlagAt env n) = false
      rw [ih]
      exact applySigs_false _

theorem c9_witness : runFlagAt envEarlyStop 3 = false :=
  c9_runflag_monotone envEarlyStop 1 3 (by decide) (by decide)

/-- C3: when cleanup runs after full streaming (device handle valid,
initialization ran, libusb context up), its steps execute in the exact order
device-reset, interface release, device-handle close, USB-context teardown,
sink close then sink removal. -/
theorem c3_cleanup_order (s : St) (h1 : s.devh = true)
    (h2 : s.init_has_been_run = true) (h3 : s.libusb_ret = 0) :
    clean_up s =
      [Event.removeElgato, Event.msg "Device has been reset.", Event.releaseInterface,
       Event.closeDev, Event.libusbExit, Event.closeFifo, Event.unlinkFifo,
       Event.msg "Terminating."] := by
  unfold clean_up
  simp [h1, h2, h3]

theorem c3_witness :
    clean_up ⟨true, 0, 3, true⟩ =
      [Event.removeElgato, Event.msg "Device has been reset.", Event.releaseInterface,
       Event.closeDev, Event.libusbExit, Event.closeFifo, Event.unlinkFifo,
       Event.msg "Terminating."] :=
  c3_cleanup_order ⟨true, 0, 3, true⟩ rfl rfl rfl

/-- C1 is refuted by the code: on the exit path where the device is never
found, cleanup still closes and unlinks the sink although the FIFO was never
created or opened, and on the unsupported-revision path it releases the
interface although the interface was never claimed. -/
theorem c1_counterexample :
    Event.closeFifo ∈ traceOf (main_after_args .v720p envNoDev 0) ∧
    Event.unlinkFifo ∈ traceOf (main_after_args .v720p envNoDev 0) ∧
    Event.openFifo ∉ traceOf (main_after_args .v720p envNoDev 0) ∧
    Event.mkfifo ∉ traceOf (main_after_args .v720p envNoDev 0) ∧
    Event.releaseInterface ∈ traceOf (main_after_args .v720p envOnlyPid3 0) ∧
    Event.claimInterface ∉ traceOf (main_after_args .v720p envOnlyPid3 0) := by
  decide

/-- C1 amended: the guards cleanup actually uses are: device-reset only when
the handle is valid and initialization ran; interface release and handle
close whenever the handle is valid (claimed or not); USB-context teardown
only when context bring-up succeeded; sink close and removal unconditionally,
even on paths where the sink was never created. -/
theorem c1_cleanup_guards (s : St) :
    (Event.removeElgato ∈ clean_up s ↔ s.devh = true ∧ s.init_has_been_run = true) ∧
    (Event.releaseInterface ∈ clean_up s ↔ s.devh = true) ∧
    (Event.closeDev ∈ clean_up s ↔ s.devh = true) ∧
    (Event.libusbExit ∈ clean_up s ↔ s.libusb_ret = 0) ∧
    Event.closeFifo ∈ clean_up s ∧ Event.unlinkFifo ∈ clean_up s := by
  unfold clean_up
  by_cases h1 : s.devh = true <;> by_cases h2 : s.init_has_been_run = true <;>
    by_cases h3 : s.libusb_ret = 0 <;> simp [h1, h2, h3]

/-- C8: if either firmware asset is absent, startup halts with the fatal
diagnostic and goes straight to cleanup; the trace contains no libusb
bring-up, no device-open attempt and no sink open. -/
theorem c8_firmware_halts (res : video_resoltion) (env : Env) (fuel : Nat)
    (h : env.fwIdle = false ∨ env.fwEnc = false) :
    main_after_args res env fuel =
      some ⟨Event.msg "Firmware files missing." :: runCleanUp st0, 0, st0⟩ ∧
    Event.libusbInit ∉ traceOf (main_after_args res env fuel) ∧
    (∀ p, Event.openDev p ∉ traceOf (main_after_args res env fuel)) ∧
    Event.openFifo ∉ traceOf (main_after_args res env fuel) := by
  have hmain : main_after_args res env fuel =
      some ⟨Event.msg "Firmware files missing." :: runCleanUp st0, 0, st0⟩ := by
    unfold main_after_args
    rcases h with h | h <;> simp [h]
  refine ⟨hmain, ?_, ?_, ?_⟩ <;> rw [hmain] <;>
    simp [traceOf, runCleanUp, clean_up, st0]

theorem c8_witness :
    main_after_args .v720p envNoFw 0 =
      some ⟨Event.msg "Firmware files missing." :: runCleanUp st0, 0, st0⟩ ∧
    Event.libusbInit ∉ traceOf (main_after_args .v720p envNoFw 0) ∧
    (∀ p, Event.openDev p ∉ traceOf (main_after_args .v720p envNoFw 0)) ∧
    Event.openFifo ∉ traceOf (main_after_args .v720p envNoFw 0) :=
  c8_firmware_halts .v720p envNoFw 0 (Or.inl rfl)

/-- C6: the resolution option accepts exactly the seven literal tokens; any
other token, a missing argument, or an unrecognized option exits with the
failure status after one usage diagnostic and before any device access
(the trace holds nothing but that diagnostic); omitting the option runs the
lifecycle with the first supported resolution, 720p. -/
theorem c6_cli (s : String) (opts : List OptEvent) (env : Env) (fuel : Nat) :
    ((parse_resolution_token s).isSome ↔ s ∈ resolutionTokens) ∧
    (parse_resolution_token s = none →
      gchd_main (OptEvent.optR s :: opts) env fuel =
        some ⟨[Event.msg "Unsupported resolution."], 1, st0⟩) ∧
    (gchd_main (OptEvent.missingArg :: opts) env fuel =
      some ⟨[Event.msg "Missing argument."], 1, st0⟩) ∧
    (gchd_main (OptEvent.unknownOpt :: opts) env fuel =
      some ⟨[Event.msg "Unrecognized option."], 1, st0⟩) ∧
    (gchd_main [] env fuel = main_after_args video_resoltion.v720p env fuel) := by
  refine ⟨?_, ?_, rfl, rfl, rfl⟩
  · unfold parse_resolution_token
    split_ifs with h1 h2 h3 h4 h5 h6 h7 <;> simp [resolutionTokens, *]
  · intro h
    simp [gchd_main, parse_args, h]

theorem c6_witness :
    gchd_main [OptEvent.optR "480i"] envNoDev 0 =
      some ⟨[Event.msg "Unsupported resolution."], 1, st0⟩ :=
  (c6_cli "480i" [] envNoDev 0).2.1 (by decide)

theorem main_after_args_exitCode (res : video_resoltion) (env : Env) (fuel : Nat)
    (rr : RunResult) (h : main_after_args res env fuel = some rr) : rr.exitCode = 0 := by
  unfold main_after_args at h
  split at h
  · split at h
    · obtain rfl := Option.some.inj h
      rfl
    · split at h
      · obtain rfl := Option.some.inj h
        rfl
      · split at h
        · split at h
          · exact absurd h (by simp)
          · obtain rfl := Option.some.inj h
            rfl
        · split at h
          · exact absurd h (by simp)
          · obtain rfl := Option.some.inj h
            rfl
  · obtain rfl := Option.some.inj h
    rfl

/-- C5: whenever a run reaches Lifecycle Cleanup, the process exit status is
the uniform success value 0, regardless of which failure occurred before. -/
theorem c5_exit_status (opts : List OptEvent) (env : Env) (fuel : Nat) (rr : RunResult)
    (h : gchd_main opts env fuel = some rr) (hc : Event.cleanUp ∈ rr.trace) :
    rr.exitCode = 0 := by
  unfold gchd_main at h
  cases hp : parse_args opts video_resoltion.v720p with
  | error m =>
      rw [hp] at h
      obtain rfl := Option.some.inj h
      simp at hc
  | ok res =>
      rw [hp] at h
      exact main_after_args_exitCode res env fuel rr h

def rrNoDev : RunResult :=
  ⟨[Event.libusbInit, Event.openDev GAME_CAPTURE_HD_PID_0, Event.openDev GAME_CAPTURE_HD_PID_1,
    Event.openDev GAME_CAPTURE_HD_PID_2, Event.openDev GAME_CAPTURE_HD_PID_3,
    Event.msg "Unable to find device.", Event.cleanUp, Event.libusbExit, Event.closeFifo,
    Event.unlinkFifo, Event.msg "Terminating."], 0, ⟨false, 0, 0, false⟩⟩

theorem c5_witness : rrNoDev.exitCode = 0 :=
  c5_exit_status [] envNoDev 0 rrNoDev (by decide) (by decide)

/-- C4 is refuted by the code: when only the fourth (known-unsupported)
identity matches, `init_dev_handler` returns the same failure value 1 as when
no identity matches, so the caller prints the generic diagnostic
"Unable to find device." on both paths. -/
theorem c4_counterexample :
    (init_dev_handler envOnlyPid3).ret = (init_dev_handler envNoDev).ret ∧
    Event.msg "Unable to find device." ∈ traceOf (main_after_args .v720p envOnlyPid3 0) ∧
    Event.msg "Unable to find device." ∈ traceOf (main_after_args .v720p envNoDev 0) := by
  decide

/-- C4 amended: device location tries the four identity candidates in fixed
priority order with first-match-wins; when only the fourth identity matches,
the locator itself prints a distinct unsupported-revision diagnostic, but it
returns the same failure value 1 as generic not-found, so the failure value
seen by the caller does not distinguish the two. -/
theorem c4_locator_order (env : Env) (h0 : env.libusbInitRet = 0) :
    (env.openOk 0 = true →
      init_dev_handler env = ⟨0, true, some 0, [], [GAME_CAPTURE_HD_PID_0]⟩) ∧
    (env.openOk 0 = false → env.openOk 1 = true →
      init_dev_handler env =
        ⟨0, true, some 1, [], [GAME_CAPTURE_HD_PID_0, GAME_CAPTURE_HD_PID_1]⟩) ∧
    (env.openOk 0 = false → env.openOk 1 = false → env.openOk 2 = true →
      init_dev_handler env =
        ⟨0, true, some 2, [],
         [GAME_CAPTURE_HD_PID_0, GAME_CAPTURE_HD_PID_1, GAME_CAPTURE_HD_PID_2]⟩) ∧
    (env.openOk 0 = false → env.openOk 1 = false → env.openOk 2 = false →
      env.openOk 3 = true →
      init_dev_handler env =
        ⟨1, true, some 3,
         ["This revision of the Elgato Game Capture HD is currently not supported."],
         [GAME_CAPTURE_HD_PID_0, GAME_CAPTURE_HD_PID_1, GAME_CAPTURE_HD_PID_2,
          GAME_CAPTURE_HD_PID_3]⟩) ∧
    ((∀ i : Fin 4, env.openOk i = false) →
      init_dev_handler env =
        ⟨1, false, none, [],
         [GAME_CAPTURE_HD_PID_0, GAME_CAPTURE_HD_PID_1, GAME_CAPTURE_HD_PID_2,
          GAME_CAPTURE_HD_PID_3]⟩) := by
  unfold init_dev_handler
  refine ⟨?_, ?_, ?_, ?_, ?_⟩
  · intro ha
    simp [h0, ha]
  · intro ha hb
    simp [h0, ha, hb]
  · intro ha hb hc
    simp [h0, ha, hb, hc]
  · intro ha hb hc hd
    simp [h0, ha, hb, hc, hd]
  · intro hall
    simp [h0, hall 0, hall 1, hall 2, hall 3]

theorem c4_witness :
    init_dev_handler envOnlyPid3 =
      ⟨1, true, some 3,
       ["This revision of the Elgato Game Capture HD is currently not supported."],
       [GAME_CAPTURE_HD_PID_0, GAME_CAPTURE_HD_PID_1, GAME_CAPTURE_HD_PID_2,
        GAME_CAPTURE_HD_PID_3]⟩ :=
  (c4_locator_order envOnlyPid3 rfl).2.2.2.1 (by decide) (by decide) (by decide) (by decide)

theorem configure_not_mem_locTrace (loc : LocResult) (k : ConfigScript) :
    Event.configure k ∉ locTrace loc := by
  intro h
  rcases locTrace_mem loc _ h with h1 | ⟨p, h1⟩ | ⟨m, h1⟩ <;> simp at h1

theorem configure_not_mem_get_interface (env : Env) (k : ConfigScript) :
    Event.configure k ∉ (get_interface env).2 := by
  intro h
  rcases get_interface_mem env _ h with h1 | h1 | h1 | ⟨m, h1⟩ <;> simp at h1

theorem configure_not_mem_clean_up (s : St) (k : ConfigScript) :
    Event.configure k ∉ clean_up s := by
  intro h
  rcases clean_up_mem s _ h with h1 | h1 | h1 | h1 | h1 | h1 | ⟨m, h1⟩ <;> simp at h1

theorem configure_not_mem_captureLoop (sched : Nat → List Nat) (f i : Nat) (r : Bool)
    (tr : List Event) (h : captureLoop sched f i r = some tr) (k : ConfigScript) :
    Event.configure k ∉ tr := by
  intro hm
  have := captureLoop_mem sched f i r tr h _ hm
  simp at this

theorem receiveData_not_mem_locTrace (loc : LocResult) :
    Event.receiveData ∉ locTrace loc := by
  intro h
  rcases locTrace_mem loc _ h with h1 | ⟨p, h1⟩ | ⟨m, h1⟩ <;> simp at h1

theorem receiveData_not_mem_get_interface (env : Env) :
    Event.receiveData ∉ (get_interface env).2 := by
  intro h
  rcases get_interface_mem env _ h with h1 | h1 | h1 | ⟨m, h1⟩ <;> simp at h1

theorem receiveData_not_mem_clean_up (s : St) :
    Event.receiveData ∉ clean_up s := by
  intro h
  rcases clean_up_mem s _ h with h1 | h1 | h1 | h1 | h1 | h1 | ⟨m, h1⟩ <;> simp at h1

theorem removeElgato_not_mem_locTrace (loc : LocResult) :
    Event.removeElgato ∉ locTrace loc := by
  intro h
  rcases locTrace_mem loc _ h with h1 | ⟨p, h1⟩ | ⟨m, h1⟩ <;> simp at h1

theorem removeElgato_not_mem_get_interface (env : Env) :
    Event.removeElgato ∉ (get_interface env).2 := by
  intro h
  rcases get_interface_mem env _ h with h1 | h1 | h1 | ⟨m, h1⟩ <;> simp at h1

theorem removeElgato_not_mem_clean_up (s : St) (hs : s.init_has_been_run = false) :
    Event.removeElgato ∉ clean_up s := by
  unfold clean_up
  by_cases h1 : s.devh = true <;> by_cases h3 : s.libusb_ret = 0 <;> simp [h1, h3, hs]

theorem count_cleanUp_locTrace (loc : LocResult) : (locTrace loc).count Event.cleanUp = 0 := by
  rw [List.count_eq_zero]
  intro h
  rcases locTrace_mem loc _ h with h1 | ⟨p, h1⟩ | ⟨m, h1⟩ <;> simp at h1

theorem count_cleanUp_get_interface (env : Env) :
    ((get_interface env).2).count Event.cleanUp = 0 := by
  rw [List.count_eq_zero]
  intro h
  rcases get_interface_mem env _ h with h1 | h1 | h1 | ⟨m, h1⟩ <;> simp at h1

theorem count_cleanUp_clean_up (s : St) : (clean_up s).count Event.cleanUp = 0 := by
  rw [List.count_eq_zero]
  intro h
  rcases clean_up_mem s _ h with h1 | h1 | h1 | h1 | h1 | h1 | ⟨m, h1⟩ <;> simp at h1

theorem count_cleanUp_captureLoop (sched : Nat → List Nat) (f i : Nat) (r : Bool)
    (tr : List Event) (h : captureLoop sched f i r = some tr) :
    tr.count Event.cleanUp = 0 := by
  rw [List.count_eq_zero]
  intro hm
  have := captureLoop_mem sched f i r tr h _ hm
  simp at this

theorem count_cleanUp_runCleanUp (s : St) : (runCleanUp s).count Event.cleanUp = 1 := by
  simp [runCleanUp, List.count_cons, count_cleanUp_clean_up s]

theorem main_after_args_cases (res : video_resoltion) (env : Env) (fuel : Nat)
    (rr : RunResult) (h : main_after_args res env fuel = some rr) :
    ((env.fwIdle && env.fwEnc) = false ∧
      rr = ⟨Event.msg "Firmware files missing." :: runCleanUp st0, 0, st0⟩) ∨
    ((env.fwIdle && env.fwEnc) = true ∧ (init_dev_handler env).ret ≠ 0 ∧
      rr = ⟨locTrace (init_dev_handler env)
              ++ (Event.msg "Unable to find device." :: runCleanUp (st1Of env)), 0, st1Of env⟩) ∨
    ((env.fwIdle && env.fwEnc) = true ∧ (init_dev_handler env).ret = 0 ∧
      (get_interface env).1 ≠ 0 ∧
      rr = ⟨locTrace (init_dev_handler env) ++ (get_interface env).2
              ++ (Event.msg "Could not claim interface." :: runCleanUp (st1Of env)), 0,
            st1Of env⟩) ∨
    ((env.fwIdle && env.fwEnc) = true ∧ (init_dev_handler env).ret = 0 ∧
      (get_interface env).1 = 0 ∧ applySigs env.sigsBeforeConfig true = true ∧
      ∃ loopTr, captureLoop env.sigsAtIter fuel 0 true = some loopTr ∧
        rr = ⟨locTrace (init_dev_handler env) ++ (get_interface env).2 ++ fifoTr
                ++ cfgTrOf res ++ loopTr
                ++ runCleanUp (configure_dev env.configOk (st2Of env)), 0,
              configure_dev env.configOk (st2Of env)⟩) ∨
    ((env.fwIdle && env.fwEnc) = true ∧ (init_dev_handler env).ret = 0 ∧
      (get_interface env).1 = 0 ∧ applySigs env.sigsBeforeConfig true = false ∧
      ∃ loopTr, captureLoop env.sigsAtIter fuel 0 false = some loopTr ∧
        rr = ⟨locTrace (init_dev_handler env) ++ (get_interface env).2 ++ fifoTr
                ++ loopTr ++ runCleanUp (st2Of env), 0, st2Of env⟩) := by
  unfold main_after_args at h
  split at h
  · split at h
    · rename_i hfw hloc
      exact Or.inr (Or.inl ⟨hfw, hloc, (Option.some.inj h).symm⟩)
    · rename_i hfw hloc
      have hloc0 : (init_dev_handler env).ret = 0 := not_ne_iff.mp hloc
      split at h
      · rename_i hgi
        exact Or.inr (Or.inr (Or.inl ⟨hfw, hloc0, hgi, (Option.some.inj h).symm⟩))
      · rename_i hgi
        have hgi0 : (get_interface env).1 = 0 := not_ne_iff.mp hgi
        split at h
        · rename_i hr
          split at h
          · exact absurd h (by simp)
          · rename_i loopTr heq
            exact Or.inr (Or.inr (Or.inr (Or.inl
              ⟨hfw, hloc0, hgi0, hr, loopTr, heq, (Option.some.inj h).symm⟩)))
        · rename_i hr
          have hr0 : applySigs env.sigsBeforeConfig true = false := by
            simpa using hr
          split at h
          · exact absurd h (by simp)
          · rename_i loopTr heq
            exact Or.inr (Or.inr (Or.inr (Or.inr
              ⟨hfw, hloc0, hgi0, hr0, loopTr, heq, (Option.some.inj h).symm⟩)))
  · rename_i hfw
    have hfw0 : (env.fwIdle && env.fwEnc) = false := by simpa using hfw
    exact Or.inl ⟨hfw0, (Option.some.inj h).symm⟩

/-- C2: on every execution path past option processing — firmware-check
failure, device not found, interface-claim failure, early stop, or full
streaming — a completed run performs Lifecycle Cleanup exactly once. -/
theorem c2_cleanup_once (res : video_resoltion) (env : Env) (fuel : Nat) (rr : RunResult)
    (h : main_after_args res env fuel = some rr) :
    rr.trace.count Event.cleanUp = 1 := by
  rcases main_after_args_cases res env fuel rr h with
    ⟨_, rfl⟩ | ⟨_, _, rfl⟩ | ⟨_, _, _, rfl⟩ | ⟨_, _, _, _, loopTr, heq, rfl⟩ |
    ⟨_, _, _, _, loopTr, heq, rfl⟩
  · simp [List.count_cons, count_cleanUp_runCleanUp]
  · simp [List.count_append, List.count_cons, count_cleanUp_locTrace, count_cleanUp_runCleanUp]
  · simp [List.count_append, List.count_cons, count_cleanUp_locTrace,
      count_cleanUp_get_interface, count_cleanUp_runCleanUp]
  · simp [List.count_append, List.count_cons, count_cleanUp_locTrace,
      count_cleanUp_get_interface, count_cleanUp_runCleanUp,
      count_cleanUp_captureLoop _ _ _ _ _ heq, fifoTr, cfgTrOf]
  · simp [List.count_append, List.count_cons, count_cleanUp_locTrace,
      count_cleanUp_get_interface, count_cleanUp_runCleanUp,
      count_cleanUp_captureLoop _ _ _ _ _ heq, fifoTr]

def rrStream : RunResult :=
  ⟨[Event.libusbInit, Event.openDev GAME_CAPTURE_HD_PID_0, Event.detachKernelDriver,
    Event.setConfiguration, Event.claimInterface, Event.mkfifo, Event.msg fifoCreatedMsg,
    Event.openFifo, Event.msg "Running. Initializing device.",
    Event.configure ConfigScript.sComponent1080i, Event.msg "Streaming data from device now.",
    Event.receiveData, Event.receiveData, Event.cleanUp, Event.removeElgato,
    Event.msg "Device has been reset.", Event.releaseInterface, Event.closeDev,
    Event.libusbExit, Event.closeFifo, Event.unlinkFifo, Event.msg "Terminating."],
   0, ⟨true, 0, 3, true⟩⟩

theorem c2_witness : rrStream.trace.count Event.cleanUp = 1 :=
  c2_cleanup_once .vc1080i envStream 10 rrStream (by decide)

/-- C7: whenever setup reaches the configuration stage with the run flag still
true, the Resolution Configurator is invoked exactly once, with the script
matching the selected resolution key, before any receive iteration, and
`init_has_been_run` becomes exactly the configuration outcome; in particular
token "c1080i" parses to `vc1080i`, which dispatches to the component-1080i
script. -/
theorem c7_configure_once (res : video_resoltion) (env : Env) (fuel : Nat) (rr : RunResult)
    (hfw : (env.fwIdle && env.fwEnc) = true)
    (hloc : (init_dev_handler env).ret = 0)
    (hgi : (get_interface env).1 = 0)
    (hr : applySigs env.sigsBeforeConfig true = true)
    (h : main_after_args res env fuel = some rr) :
    (∃ A B, rr.trace = A ++ Event.configure (configure_dispatch res) :: B ∧
      (∀ k, Event.configure k ∉ A) ∧ (∀ k, Event.configure k ∉ B) ∧
      Event.receiveData ∉ A) ∧
    rr.finalSt.init_has_been_run = env.configOk ∧
    parse_resolution_token "c1080i" = some video_resoltion.vc1080i ∧
    configure_dispatch video_resoltion.vc1080i = ConfigScript.sComponent1080i := by
  rcases main_after_args_cases res env fuel rr h with
    ⟨hf, _⟩ | ⟨_, hl, _⟩ | ⟨_, _, hg, _⟩ | ⟨_, _, _, _, loopTr, heq, rfl⟩ | ⟨_, _, _, hr2, _⟩
  · rw [hfw] at hf
    exact absurd hf (by simp)
  · exact absurd hloc hl
  · exact absurd hgi hg
  · refine ⟨⟨locTrace (init_dev_handler env) ++ (get_interface env).2 ++ fifoTr
        ++ [Event.msg "Running. Initializing device."],
      Event.msg "Streaming data from device now."
        :: (loopTr ++ runCleanUp (configure_dev env.configOk (st2Of env))),
      ?_, ?_, ?_, ?_⟩, rfl, by decide, rfl⟩
    · simp [cfgTrOf, List.append_assoc]
    · intro k hk
      rcases List.mem_append.mp hk with hk | hk
      · rcases List.mem_append.mp hk with hk | hk
        · rcases List.mem_append.mp hk with hk | hk
          · exact configure_not_mem_locTrace _ k hk
          · exact configure_not_mem_get_interface env k hk
        · simp [fifoTr] at hk
      · simp at hk
    · intro k hk
      rcases List.mem_cons.mp hk with hk | hk
      · simp at hk
      rcases List.mem_append.mp hk with hk | hk
      · exact configure_not_mem_captureLoop _ _ _ _ _ heq k hk
      · simp only [runCleanUp, List.mem_cons] at hk
        rcases hk with hk | hk
        · simp at hk
        · exact configure_not_mem_clean_up _ k hk
    · intro hk
      rcases List.mem_append.mp hk with hk | hk
      · rcases List.mem_append.mp hk with hk | hk
        · rcases List.mem_append.mp hk with hk | hk
          · exact receiveData_not_mem_locTrace _ hk
          · exact receiveData_not_mem_get_interface env hk
        · simp [fifoTr] at hk
      · simp at hk
  · rw [hr] at hr2
    exact absurd hr2 (by simp)

theorem c7_witness :
    (∃ A B, rrStream.trace = A ++ Event.configure (configure_dispatch .vc1080i) :: B ∧
      (∀ k, Event.configure k ∉ A) ∧ (∀ k, Event.configure k ∉ B) ∧
      Event.receiveData ∉ A) ∧
    rrStream.finalSt.init_has_been_run = envStream.configOk ∧
    parse_resolution_token "c1080i" = some video_resoltion.vc1080i ∧
    configure_dispatch video_resoltion.vc1080i = ConfigScript.sComponent1080i :=
  c7_configure_once .vc1080i envStream 10 rrStream (by decide) (by decide) (by decide)
    (by decide) (by decide)

/-- C10: if the run flag is already false when setup reaches the configuration
stage, the Configurator is never invoked, the capture loop performs zero
receive iterations, `init_has_been_run` stays false, and the subsequent
cleanup sends no device-reset command. -/
theorem c10_early_stop (res : video_resoltion) (env : Env) (fuel : Nat) (rr : RunResult)
    (hfw : (env.fwIdle && env.fwEnc) = true)
    (hloc : (init_dev_handler env).ret = 0)
    (hgi : (get_interface env).1 = 0)
    (hr : applySigs env.sigsBeforeConfig true = false)
    (h : main_after_args res env fuel = some rr) :
    (∀ k, Event.configure k ∉ rr.trace) ∧ Event.receiveData ∉ rr.trace ∧
    rr.finalSt.init_has_been_run = false ∧ Event.removeElgato ∉ rr.trace := by
  rcases main_after_args_cases res env fuel rr h with
    ⟨hf, _⟩ | ⟨_, hl, _⟩ | ⟨_, _, hg, _⟩ | ⟨_, _, _, hr2, _⟩ | ⟨_, _, _, _, loopTr, heq, rfl⟩
  · rw [hfw] at hf
    exact absurd hf (by simp)
  · exact absurd hloc hl
  · exact absurd hgi hg
  · rw [hr] at hr2
    exact absurd hr2 (by simp)
  · have hlt : loopTr = [] := by
      rw [captureLoop_flag_false] at heq
      exact (Option.some.inj heq).symm
    subst hlt
    refine ⟨?_, ?_, rfl, ?_⟩
    · intro k hk
      rcases List.mem_append.mp hk with hk | hk
      · rcases List.mem_append.mp hk with hk | hk
        · rcases List.mem_append.mp hk with hk | hk
          · rcases List.mem_append.mp hk with hk | hk
            · exact configure_not_mem_locTrace _ k hk
            · exact configure_not_mem_get_interface env k hk
          · simp [fifoTr] at hk
        · simp at hk
      · simp only [runCleanUp, List.mem_cons] at hk
        rcases hk with hk | hk
        · simp at hk
        · exact configure_not_mem_clean_up _ k hk
    · intro hk
      rcases List.mem_append.mp hk with hk | hk
      · rcases List.mem_append.mp hk with hk | hk
        · rcases List.mem_append.mp hk with hk | hk
          · rcases List.mem_append.mp hk with hk | hk
            · exact receiveData_not_mem_locTrace _ hk
            · exact receiveData_not_mem_get_interface env hk
          · simp [fifoTr] at hk
        · simp at hk
      · simp only [runCleanUp, List.mem_cons] at hk
        rcases hk with hk | hk
        · simp at hk
        · exact receiveData_not_mem_clean_up _ hk
    · intro hk
      rcases List.mem_append.mp hk with hk | hk
      · rcases List.mem_append.mp hk with hk | hk
        · rcases List.mem_append.mp hk with hk | hk
          · rcases List.mem_append.mp hk with hk | hk
            · exact removeElgato_not_mem_locTrace _ hk
            · exact removeElgato_not_mem_get_interface env hk
          · simp [fifoTr] at hk
        · simp at hk
      · simp only [runCleanUp, List.mem_cons] at hk
        rcases hk with hk | hk
        · simp at hk
        · exact removeElgato_not_mem_clean_up _ rfl hk

def rrEarlyStop : RunResult :=
  ⟨[Event.libusbInit, Event.openDev GAME_CAPTURE_HD_PID_0, Event.setConfiguration,
    Event.claimInterface, Event.mkfifo, Event.msg fifoCreatedMsg, Event.openFifo,
    Event.cleanUp, Event.releaseInterface, Event.closeDev, Event.libusbExit,
    Event.closeFifo, Event.unlinkFifo, Event.msg "Terminating."],
   0, ⟨true, 0, -1, false⟩⟩

theorem c10_witness :
    (∀ k, Event.configure k ∉ rrEarlyStop.trace) ∧
    Event.receiveData ∉ rrEarlyStop.trace ∧
    rrEarlyStop.finalSt.init_has_been_run = false ∧
    Event.removeElgato ∉ rrEarlyStop.trace :=
  c10_early_stop .v720p envEarlyStop 0 rrEarlyStop (by decide) (by decide) (by decide)
    (by decide) (by decide)
